import Mathlib

/-!
Shallow embedding of the tax calculation engine in `src/lib/calculator.ts`
(Indian advance-tax worksheet for FY 2025-26).  JavaScript numbers are
modelled as exact rationals (`ℚ`); calendar dates (the `Date` objects
produced by `parseISO` on `YYYY-MM-DD` strings) are modelled as
year/month/day triples compared lexicographically, which agrees with
timestamp comparison for such midnight-UTC dates.  Empty/absent date
strings are modelled as `Option.none`; `??` (nullish coalescing) is
`Option.getD`.
-/

/-- Calendar date, the embedding of a `parseISO('YYYY-MM-DD')` result. -/
structure CalDate where
  year : Nat
  month : Nat
  day : Nat
deriving DecidableEq, Repr

/-- Numeric key giving the lexicographic (chronological) order on dates;
`d₁ ≤ d₂` as JS `Date` timestamps corresponds to `d₁.key ≤ d₂.key`. -/
def CalDate.key (d : CalDate) : Nat :=
  (d.year * 100 + d.month) * 100 + d.day

/-- Fund category of a mutual-fund withdrawal (`'equity' | 'debt'`). -/
inductive FundType where
  | equity
  | debt
deriving DecidableEq, Repr

/-- Residential status (`'resident' | 'non-resident' | 'rnor'`). -/
inductive ResidentialStatus where
  | resident
  | nonResident
  | rnor
deriving DecidableEq, Repr

/-- Age bracket (`'below60' | '60to80' | 'above80'`). -/
inductive AgeBracket where
  | below60
  | age60to80
  | above80
deriving DecidableEq, Repr

/-- Tax regime selector (`'old' | 'new'`). -/
inductive TaxRegime where
  | old
  | new
deriving DecidableEq, Repr

/-- Fields of `PersonalInfo` read by the calculator.  The optional
`hasBusinessOrProfessionalIncome` flag models a possibly-`undefined`
TypeScript field (`none` = absent/undefined). -/
structure PersonalInfo where
  residentialStatus : ResidentialStatus
  ageBracket : AgeBracket
  hasBusinessOrProfessionalIncome : Option Bool
deriving DecidableEq, Repr

/-- Salary income record (`SalaryIncome`). -/
structure SalaryIncome where
  grossSalary : ℚ
  professionalTax : ℚ
  standardDeduction : ℚ
  tds : ℚ
deriving DecidableEq, Repr

/-- Mutual-fund withdrawal record (`MutualFundWithdrawal`), with the fields
the calculator reads.  Dates are `none` when the corresponding string is
empty (the falsy case in `getIndexedCost`). -/
structure MutualFundWithdrawal where
  fundType : FundType
  dateOfInvestment : Option CalDate
  dateOfWithdrawal : Option CalDate
  amountWithdrawn : ℚ
  costBasis : ℚ
  holdingPeriodMonths : ℚ
  tds : ℚ
deriving DecidableEq, Repr

/-- US stock sale record (`USStockSale`), with the fields the calculator
reads. -/
structure USStockSale where
  dateOfPurchase : Option CalDate
  dateOfSale : Option CalDate
  saleProceedsINR : ℚ
  costBasisINR : ℚ
  brokerageCharges : ℚ
  holdingPeriodMonths : ℚ
  tds : ℚ
deriving DecidableEq, Repr

/-- Other-income record (`OtherIncome`); the calculator reads only
`amount` and `tds`. -/
structure OtherIncome where
  amount : ℚ
  tds : ℚ
deriving DecidableEq, Repr

/-- Deduction buckets (`Deductions`). -/
structure Deductions where
  section80C : ℚ
  section80D : ℚ
  section80CCD1B : ℚ
  section80G : ℚ
  section24b : ℚ
  otherChapterVIA : ℚ
deriving DecidableEq, Repr

/-- Advance-tax payment record (`AdvanceTaxPayment`).  `datePaid` is `none`
when the `datePaid` string is empty, in which case the code falls back to
the record's `dueDate` (`parseISO(p.datePaid || p.dueDate)`). -/
structure AdvanceTaxPayment where
  dueDate : CalDate
  amountPaid : ℚ
  datePaid : Option CalDate
deriving DecidableEq, Repr

/-- Input state of `generateWorksheet` (`TaxState`), restricted to the
fields the calculator reads. -/
structure TaxState where
  personalInfo : PersonalInfo
  salaryIncome : Option SalaryIncome
  mfWithdrawals : List MutualFundWithdrawal
  usStockSales : List USStockSale
  otherIncome : List OtherIncome
  deductions : Deductions
  advanceTaxPaid : List AdvanceTaxPayment
deriving DecidableEq, Repr

/-- Row of the advance-tax schedule (`AdvanceTaxScheduleItem`); the
`dueDate` string is kept as its parsed date. -/
structure AdvanceTaxScheduleItem where
  quarter : String
  dueDate : CalDate
  cumulativePercentage : ℚ
  requiredAmount : ℚ
  actualPaid : ℚ
  shortfall : ℚ
deriving DecidableEq, Repr

/-- Output of `generateWorksheet` (`TaxCalculationResults`). -/
structure TaxCalculationResults where
  totalIncome : ℚ
  taxableIncome : ℚ
  taxOldRegime : ℚ
  taxNewRegime : ℚ
  recommendedRegime : TaxRegime
  advanceTaxSchedule : List AdvanceTaxScheduleItem
  interest234B : ℚ
  interest234C : ℚ
  totalTdsCredited : ℚ
  netAmountPayable : ℚ
deriving DecidableEq, Repr

/-- Indexation placeholder: `getIndexedCost`.  Returns `cost` when either
date string is empty, otherwise uplifts the cost by 4% per year over
`Math.max(0, getYear(sDate) - getYear(pDate))` years; the truncated `Nat`
subtraction is exactly that clamp at zero. -/
def getIndexedCost (cost : ℚ) (purchaseDate saleDate : Option CalDate) : ℚ :=
  match purchaseDate, saleDate with
  | some pDate, some sDate => cost * (104 / 100 : ℚ) ^ (sDate.year - pDate.year)
  | _, _ => cost

/-- Aggregated mutual-fund gains (`GainSummary`). -/
structure GainSummary where
  equityLtcg : ℚ
  equityStcg : ℚ
  debtLtcg : ℚ
  debtStcgAsSlab : ℚ
  totalTds : ℚ
deriving DecidableEq, Repr

/-- Aggregated US-stock gains (`USGainSummary`). -/
structure USGainSummary where
  ltcg : ℚ
  stcg : ℚ
  totalTds : ℚ
deriving DecidableEq, Repr

/-- Body of the `for` loop of `calculateMFGains`, as a fold step over the
running summary. -/
def mfStep (acc : GainSummary) (w : MutualFundWithdrawal) : GainSummary :=
  let acc := { acc with totalTds := acc.totalTds + w.tds }
  let gain := w.amountWithdrawn - w.costBasis
  if gain ≤ 0 then acc
  else
    match w.fundType with
    | .equity =>
        if 12 < w.holdingPeriodMonths then
          { acc with equityLtcg := acc.equityLtcg + gain }
        else
          { acc with equityStcg := acc.equityStcg + gain }
    | .debt =>
        if 36 < w.holdingPeriodMonths then
          let indexedCost := getIndexedCost w.costBasis w.dateOfInvestment w.dateOfWithdrawal
          let indexedGain := max 0 (w.amountWithdrawn - indexedCost)
          { acc with debtLtcg := acc.debtLtcg + indexedGain }
        else
          { acc with debtStcgAsSlab := acc.debtStcgAsSlab + gain }

/-- Embedding of `calculateMFGains`. -/
def calculateMFGains (withdrawals : List MutualFundWithdrawal) : GainSummary :=
  withdrawals.foldl mfStep
    { equityLtcg := 0, equityStcg := 0, debtLtcg := 0, debtStcgAsSlab := 0, totalTds := 0 }

/-- Body of the `for` loop of `calculateUSStockGains`, as a fold step. -/
def usStep (acc : USGainSummary) (s : USStockSale) : USGainSummary :=
  let acc := { acc with totalTds := acc.totalTds + s.tds }
  let gain := s.saleProceedsINR - s.costBasisINR - s.brokerageCharges
  if gain ≤ 0 then acc
  else
    if 24 < s.holdingPeriodMonths then
      let indexedCost := getIndexedCost s.costBasisINR s.dateOfPurchase s.dateOfSale
      let indexedGain := max 0 (s.saleProceedsINR - indexedCost - s.brokerageCharges)
      { acc with ltcg := acc.ltcg + indexedGain }
    else
      { acc with stcg := acc.stcg + gain }

/-- Embedding of `calculateUSStockGains`. -/
def calculateUSStockGains (sales : List USStockSale) : USGainSummary :=
  sales.foldl usStep { ltcg := 0, stcg := 0, totalTds := 0 }

/-- Embedding of `calculateSlabTax`: progressive slab tax with the
Section 87A rebate applied per regime. -/
def calculateSlabTax (income : ℚ) (regime : TaxRegime) : ℚ :=
  match regime with
  | .old =>
      if income ≤ 250000 then 0
      else
        let tax :=
          if income ≤ 500000 then (income - 250000) * (5 / 100)
          else if income ≤ 1000000 then 12500 + (income - 500000) * (20 / 100)
          else 112500 + (income - 1000000) * (30 / 100)
        if income ≤ 500000 then 0 else tax
  | .new =>
      if income ≤ 300000 then 0
      else
        let tax :=
          if income ≤ 700000 then (income - 300000) * (5 / 100)
          else if income ≤ 1000000 then 20000 + (income - 700000) * (10 / 100)
          else if income ≤ 1200000 then 50000 + (income - 1000000) * (15 / 100)
          else if income ≤ 1500000 then 80000 + (income - 1200000) * (20 / 100)
          else 140000 + (income - 1500000) * (30 / 100)
        if income ≤ 700000 then 0 else tax

/-- Embedding of `calculateSurcharge`. -/
def calculateSurcharge (tax income : ℚ) : ℚ :=
  if income ≤ 5000000 then 0
  else if income ≤ 10000000 then tax * (10 / 100)
  else if income ≤ 20000000 then tax * (15 / 100)
  else tax * (25 / 100)

/-- Summary of the mutual-fund gains of a state (`mfSummary` in
`generateWorksheet`). -/
def mfSummaryOf (s : TaxState) : GainSummary :=
  calculateMFGains s.mfWithdrawals

/-- Summary of the US-stock gains of a state (`usSummary`). -/
def usSummaryOf (s : TaxState) : USGainSummary :=
  calculateUSStockGains s.usStockSales

/-- Total of the other-income amounts (`totalOtherIncome`). -/
def totalOtherIncomeOf (s : TaxState) : ℚ :=
  s.otherIncome.foldl (fun acc curr => acc + curr.amount) 0

/-- Total TDS of the other-income records (`otherIncomeTds`). -/
def otherIncomeTdsOf (s : TaxState) : ℚ :=
  s.otherIncome.foldl (fun acc curr => acc + curr.tds) 0

/-- Net salary after professional tax and standard deduction
(`salaryNet`), zero when no salary record is present. -/
def salaryNetOf (s : TaxState) : ℚ :=
  match s.salaryIncome with
  | some si => max 0 (si.grossSalary - si.professionalTax - si.standardDeduction)
  | none => 0

/-- Slab-rate income base (`slabIncomeBase`): salary plus other income
plus debt-fund short-term gains taxed at slab. -/
def slabIncomeBaseOf (s : TaxState) : ℚ :=
  salaryNetOf s + totalOtherIncomeOf s + (mfSummaryOf s).debtStcgAsSlab

/-- Total TDS credited (`totalTds`): salary TDS (`salaryIncome?.tds || 0`)
plus fund, stock and other-income TDS. -/
def totalTdsOf (s : TaxState) : ℚ :=
  (match s.salaryIncome with | some si => si.tds | none => 0)
    + (mfSummaryOf s).totalTds + (usSummaryOf s).totalTds + otherIncomeTdsOf s

/-- Capped deduction total of the old regime (`totalDeductions` inside
`computeRegimeTax`). -/
def totalDeductionsOf (s : TaxState) : ℚ :=
  min s.deductions.section80C 150000
    + min s.deductions.section80D
        (if s.personalInfo.ageBracket = .below60 then 25000 else 50000)
    + min s.deductions.section80CCD1B 50000
    + s.deductions.section80G + s.deductions.section24b + s.deductions.otherChapterVIA

/-- Taxable slab income of a regime (`taxableIncome` inside
`computeRegimeTax`): deductions are subtracted (clamped at zero) only
under the old regime. -/
def regimeTaxableIncome (s : TaxState) (regime : TaxRegime) : ℚ :=
  match regime with
  | .old => max 0 (slabIncomeBaseOf s - totalDeductionsOf s)
  | .new => slabIncomeBaseOf s

/-- Pre-surcharge tax of a regime: slab tax plus the special-rate taxes on
equity STCG (20%), equity LTCG (12.5% over the 125,000 exemption), debt
LTCG (20%), US STCG (15%) and US LTCG (20%). -/
def regimeBaseTax (s : TaxState) (regime : TaxRegime) : ℚ :=
  calculateSlabTax (regimeTaxableIncome s regime) regime
    + (mfSummaryOf s).equityStcg * (20 / 100)
    + (if 125000 < (mfSummaryOf s).equityLtcg then
        ((mfSummaryOf s).equityLtcg - 125000) * (125 / 1000)
      else 0)
    + (mfSummaryOf s).debtLtcg * (20 / 100)
    + (usSummaryOf s).stcg * (15 / 100)
    + (usSummaryOf s).ltcg * (20 / 100)

/-- Taxable income including the special-rate gains
(`taxableIncomeWithSpecialRates`), used as the surcharge base and
reported as the regime's taxable income. -/
def regimeTaxableIncomeWithSpecialRates (s : TaxState) (regime : TaxRegime) : ℚ :=
  regimeTaxableIncome s regime
    + (mfSummaryOf s).equityLtcg + (mfSummaryOf s).equityStcg + (mfSummaryOf s).debtLtcg
    + (usSummaryOf s).ltcg + (usSummaryOf s).stcg

/-- Total tax of a regime (`computeRegimeTax(...).totalTax`): base tax
plus surcharge, then 4% cess on the sum. -/
def regimeTotalTax (s : TaxState) (regime : TaxRegime) : ℚ :=
  let baseTax := regimeBaseTax s regime
  let withSurcharge :=
    baseTax + calculateSurcharge baseTax (regimeTaxableIncomeWithSpecialRates s regime)
  withSurcharge + withSurcharge * (4 / 100)

/-- Recommended regime: `'old'` when the old-regime total tax is ≤ the
new-regime total tax. -/
def recommendedRegimeOf (s : TaxState) : TaxRegime :=
  if regimeTotalTax s .old ≤ regimeTotalTax s .new then .old else .new

/-- Final tax: the total tax of the recommended regime (`finalTax`,
a ternary on `recommendedRegime === 'old'`). -/
def finalTaxOf (s : TaxState) : ℚ :=
  if recommendedRegimeOf s = TaxRegime.old then regimeTotalTax s TaxRegime.old
  else regimeTotalTax s TaxRegime.new

/-- Assessed tax (`assessedTax`): final tax minus total TDS, clamped at
zero. -/
def assessedTaxOf (s : TaxState) : ℚ :=
  max 0 (finalTaxOf s - totalTdsOf s)

/-- Flag `isResidentSenior`: resident and not in the below-60 bracket. -/
def isResidentSeniorOf (s : TaxState) : Bool :=
  s.personalInfo.residentialStatus = ResidentialStatus.resident
    && s.personalInfo.ageBracket ≠ AgeBracket.below60

/-- Flag `hasBusinessOrProfessionalIncome ?? true`: an absent flag is
treated as `true`. -/
def hasBizIncomeOf (s : TaxState) : Bool :=
  s.personalInfo.hasBusinessOrProfessionalIncome.getD true

/-- Flag `exemptFromAdvanceTax`: resident senior with no
business/professional income. -/
def exemptFromAdvanceTaxOf (s : TaxState) : Bool :=
  isResidentSeniorOf s && !hasBizIncomeOf s

/-- Flag `isAdvanceTaxApplicable`: not exempt and assessed tax above
10,000. -/
def isAdvanceTaxApplicableOf (s : TaxState) : Bool :=
  !exemptFromAdvanceTaxOf s && decide (10000 < assessedTaxOf s)

/-- Base for the advance-tax schedule (`advanceTaxBase`): the assessed
tax when advance tax is applicable, else zero. -/
def advanceTaxBaseOf (s : TaxState) : ℚ :=
  if isAdvanceTaxApplicableOf s then assessedTaxOf s else 0

/-- Valid payment after mapping (`validPayments` element): amount and the
effective payment date `parseISO(p.datePaid || p.dueDate)`. -/
structure ValidPayment where
  amount : ℚ
  paidOn : CalDate
deriving DecidableEq, Repr

/-- Embedding of `validPayments`: payments mapped to amount/effective
date and filtered to positive amounts.  The `!Number.isNaN` clause is
vacuous here because every modelled date is valid. -/
def validPaymentsOf (s : TaxState) : List ValidPayment :=
  (s.advanceTaxPaid.map
    (fun p => ValidPayment.mk p.amountPaid (p.datePaid.getD p.dueDate))).filter
    (fun p => decide (0 < p.amount))

/-- Total valid payments made on or before 2026-03-31
(`paidThroughMarch31`). -/
def paidThroughMarch31Of (s : TaxState) : ℚ :=
  (validPaymentsOf s).foldl
    (fun acc p => if p.paidOn.key ≤ (CalDate.mk 2026 3 31).key then acc + p.amount else acc) 0

/-- Total of all valid payments (`totalAdvanceTaxPaid`). -/
def totalAdvanceTaxPaidOf (s : TaxState) : ℚ :=
  (validPaymentsOf s).foldl (fun acc p => acc + p.amount) 0

/-- Cumulative valid payments on or before a due date
(`cumulativePaidByDueDate` inside the `forEach`). -/
def cumulativePaidBy (s : TaxState) (dueDate : CalDate) : ℚ :=
  (validPaymentsOf s).foldl
    (fun acc p => if p.paidOn.key ≤ dueDate.key then acc + p.amount else acc) 0

/-- Fully-populated schedule row: the literal row of the `schedule` array
with the `forEach` mutation of `actualPaid` and `shortfall` fused in. -/
def scheduleRow (s : TaxState) (quarter : String) (dueDate : CalDate)
    (pct : ℚ) (frac : ℚ) : AdvanceTaxScheduleItem :=
  { quarter := quarter
    dueDate := dueDate
    cumulativePercentage := pct
    requiredAmount := advanceTaxBaseOf s * frac
    actualPaid := cumulativePaidBy s dueDate
    shortfall := max 0 (advanceTaxBaseOf s * frac - cumulativePaidBy s dueDate) }

/-- Advance-tax schedule (`schedule`) after the shortfall pass. -/
def scheduleOf (s : TaxState) : List AdvanceTaxScheduleItem :=
  [ scheduleRow s "June" (CalDate.mk 2025 6 15) 15 (15 / 100),
    scheduleRow s "September" (CalDate.mk 2025 9 15) 45 (45 / 100),
    scheduleRow s "December" (CalDate.mk 2025 12 15) 75 (75 / 100),
    scheduleRow s "March" (CalDate.mk 2026 3 15) 100 1 ]

/-- Interest under section 234C (`interest234C`). -/
def interest234COf (s : TaxState) : ℚ :=
  if isAdvanceTaxApplicableOf s then
    (scheduleOf s).foldl
      (fun acc item =>
        if 0 < item.shortfall then
          acc + item.shortfall * (1 / 100) * (if item.quarter = "March" then 1 else 3)
        else acc) 0
  else 0

/-- Interest under section 234B (`interest234B`). -/
def interest234BOf (s : TaxState) : ℚ :=
  if isAdvanceTaxApplicableOf s
      && decide (paidThroughMarch31Of s < assessedTaxOf s * (90 / 100)) then
    (assessedTaxOf s * (90 / 100) - paidThroughMarch31Of s) * (1 / 100) * 4
  else 0

/-- Embedding of `generateWorksheet`. -/
def generateWorksheet (s : TaxState) : TaxCalculationResults :=
  { totalIncome := slabIncomeBaseOf s
      + (mfSummaryOf s).equityLtcg + (mfSummaryOf s).equityStcg + (mfSummaryOf s).debtLtcg
      + (usSummaryOf s).ltcg + (usSummaryOf s).stcg
    taxableIncome :=
      if recommendedRegimeOf s = TaxRegime.old then
        regimeTaxableIncomeWithSpecialRates s TaxRegime.old
      else regimeTaxableIncomeWithSpecialRates s TaxRegime.new
    taxOldRegime := regimeTotalTax s .old
    taxNewRegime := regimeTotalTax s .new
    recommendedRegime := recommendedRegimeOf s
    advanceTaxSchedule := scheduleOf s
    interest234B := interest234BOf s
    interest234C := interest234COf s
    totalTdsCredited := totalTdsOf s
    netAmountPayable :=
      max 0 (assessedTaxOf s + interest234BOf s + interest234COf s - totalAdvanceTaxPaidOf s) }

/-- Definition following the words of the specification (for comparison
with `cumulativePaidBy`): the sum of all payment records whose payment
date — `datePaid`, falling back to the record's due date when absent —
is on or before the given due date. -/
def specSumPaidOnOrBefore (s : TaxState) (dueDate : CalDate) : ℚ :=
  (s.advanceTaxPaid.filter
      (fun p => decide ((p.datePaid.getD p.dueDate).key ≤ dueDate.key))).foldl
    (fun acc p => acc + p.amountPaid) 0

/-- Definition following the words of the specification (for comparison
with the year arithmetic of `getIndexedCost`): the number of elapsed
whole years between an acquisition date and a disposal date, i.e. the
count of complete 12-month anniversaries passed, floored at zero. -/
def specWholeYearsBetween (pDate sDate : CalDate) : Nat :=
  if sDate.month < pDate.month
      ∨ (sDate.month = pDate.month ∧ sDate.day < pDate.day) then
    sDate.year - pDate.year - 1
  else
    sDate.year - pDate.year

/-- Zero mutual-fund summary (the initial accumulator). -/
def gsZero : GainSummary :=
  { equityLtcg := 0, equityStcg := 0, debtLtcg := 0, debtStcgAsSlab := 0, totalTds := 0 }

/-- Fieldwise addition of mutual-fund summaries. -/
def gsAdd (x y : GainSummary) : GainSummary :=
  { equityLtcg := x.equityLtcg + y.equityLtcg
    equityStcg := x.equityStcg + y.equityStcg
    debtLtcg := x.debtLtcg + y.debtLtcg
    debtStcgAsSlab := x.debtStcgAsSlab + y.debtStcgAsSlab
    totalTds := x.totalTds + y.totalTds }

/-- Zero US-stock summary (the initial accumulator). -/
def usZero : USGainSummary := { ltcg := 0, stcg := 0, totalTds := 0 }

/-- Fieldwise addition of US-stock summaries. -/
def usAdd (x y : USGainSummary) : USGainSummary :=
  { ltcg := x.ltcg + y.ltcg, stcg := x.stcg + y.stcg, totalTds := x.totalTds + y.totalTds }

/-- Debt-fund entry held 38 whole months (2020-11-15 to 2024-01-20),
whose calendar-year difference (4) differs from its elapsed whole years
(3). -/
def debtEntryAcross4Years : MutualFundWithdrawal :=
  { fundType := .debt, dateOfInvestment := some (CalDate.mk 2020 11 15),
    dateOfWithdrawal := some (CalDate.mk 2024 1 20),
    amountWithdrawn := 200, costBasis := 100, holdingPeriodMonths := 38, tds := 0 }

/-- Empty deduction record. -/
def zeroDeductions : Deductions :=
  { section80C := 0, section80D := 0, section80CCD1B := 0,
    section80G := 0, section24b := 0, otherChapterVIA := 0 }

/-- Below-60 resident with 2,000,000 of other income, no TDS and no
payments: advance tax is applicable (assessed tax 301,600 under the
recommended new regime). -/
def highIncomeState : TaxState :=
  { personalInfo :=
      { residentialStatus := .resident
        ageBracket := .below60
        hasBusinessOrProfessionalIncome := some true }
    salaryIncome := none
    mfWithdrawals := []
    usStockSales := []
    otherIncome := [{ amount := 2000000, tds := 0 }]
    deductions := zeroDeductions
    advanceTaxPaid := [] }

/-- Resident senior (60–80) without business income and with only
40,000 of interest income: advance-tax exempt. -/
def seniorExemptState : TaxState :=
  { personalInfo :=
      { residentialStatus := .resident
        ageBracket := .age60to80
        hasBusinessOrProfessionalIncome := some false }
    salaryIncome := none
    mfWithdrawals := []
    usStockSales := []
    otherIncome := [{ amount := 40000, tds := 0 }]
    deductions := zeroDeductions
    advanceTaxPaid := [] }

/-- Below-60 resident with 800,000 of other income and 26,200 of TDS:
assessed tax is 5,000, below the 10,000 advance-tax threshold. -/
def lowAssessedState : TaxState :=
  { personalInfo :=
      { residentialStatus := .resident
        ageBracket := .below60
        hasBusinessOrProfessionalIncome := some true }
    salaryIncome := none
    mfWithdrawals := []
    usStockSales := []
    otherIncome := [{ amount := 800000, tds := 26200 }]
    deductions := zeroDeductions
    advanceTaxPaid := [] }

/-- High-income state paying each installment in full a few days before
its due date. -/
def fullPaymentState : TaxState :=
  { highIncomeState with advanceTaxPaid :=
      [ { dueDate := CalDate.mk 2025 6 15, amountPaid := 45240,
          datePaid := some (CalDate.mk 2025 6 10) },
        { dueDate := CalDate.mk 2025 9 15, amountPaid := 90480,
          datePaid := some (CalDate.mk 2025 9 10) },
        { dueDate := CalDate.mk 2025 12 15, amountPaid := 90480,
          datePaid := some (CalDate.mk 2025 12 10) },
        { dueDate := CalDate.mk 2026 3 15, amountPaid := 75400,
          datePaid := some (CalDate.mk 2026 3 10) } ] }

/-- High-income state with a single 1,000 payment nominally for the June
installment but actually dated 2025-09-01. -/
def latePaymentState : TaxState :=
  { highIncomeState with advanceTaxPaid :=
      [ { dueDate := CalDate.mk 2025 6 15, amountPaid := 1000,
          datePaid := some (CalDate.mk 2025 9 1) } ] }

/-- State with no income at all: both regimes yield zero tax. -/
def emptyState : TaxState :=
  { personalInfo :=
      { residentialStatus := .resident
        ageBracket := .below60
        hasBusinessOrProfessionalIncome := some true }
    salaryIncome := none
    mfWithdrawals := []
    usStockSales := []
    otherIncome := []
    deductions := zeroDeductions
    advanceTaxPaid := [] }

/-- Resident senior whose business/professional-income flag is absent. -/
def stateNoFlag : TaxState :=
  { personalInfo :=
      { residentialStatus := .resident
        ageBracket := .age60to80
        hasBusinessOrProfessionalIncome := none }
    salaryIncome := none
    mfWithdrawals := []
    usStockSales := []
    otherIncome := [{ amount := 40000, tds := 0 }]
    deductions := zeroDeductions
    advanceTaxPaid := [] }

/-- Equity-fund withdrawal held exactly 12 months. -/
def equityAtThreshold : MutualFundWithdrawal :=
  { fundType := .equity
    dateOfInvestment := none
    dateOfWithdrawal := none
    amountWithdrawn := 150
    costBasis := 100
    holdingPeriodMonths := 12
    tds := 0 }

/-- Debt-fund withdrawal held exactly 36 months. -/
def debtAtThreshold : MutualFundWithdrawal :=
  { fundType := .debt
    dateOfInvestment := none
    dateOfWithdrawal := none
    amountWithdrawn := 140
    costBasis := 100
    holdingPeriodMonths := 36
    tds := 0 }

/-- US-stock sale held exactly 24 months. -/
def usAtThreshold : USStockSale :=
  { dateOfPurchase := none
    dateOfSale := none
    saleProceedsINR := 130
    costBasisINR := 100
    brokerageCharges := 0
    holdingPeriodMonths := 24
    tds := 0 }

/-- Shifting the initial accumulator out of a conditional-sum fold. -/
lemma foldl_ite_add_shift {α : Type} (c : α → Prop) [DecidablePred c] (g : α → ℚ) :
    ∀ (l : List α) (a : ℚ),
      l.foldl (fun acc p => if c p then acc + g p else acc) a
        = a + l.foldl (fun acc p => if c p then acc + g p else acc) 0
  | [], a => by simp
  | p :: l, a => by
      simp only [List.foldl_cons]
      rw [foldl_ite_add_shift c g l, foldl_ite_add_shift c g l (if c p then 0 + g p else 0)]
      split <;> ring

/-- Shifting the initial accumulator out of a plain-sum fold. -/
lemma foldl_add_shift {α : Type} (g : α → ℚ) :
    ∀ (l : List α) (a : ℚ),
      l.foldl (fun acc p => acc + g p) a = a + l.foldl (fun acc p => acc + g p) 0
  | [], a => by simp
  | p :: l, a => by
      simp only [List.foldl_cons]
      rw [foldl_add_shift g l, foldl_add_shift g l (0 + g p)]
      ring

/-- The conditional-sum fold of nonnegative contributions is nonnegative. -/
lemma foldl_ite_add_nonneg {α : Type} (c : α → Prop) [DecidablePred c] (g : α → ℚ) :
    ∀ (l : List α), (∀ p ∈ l, 0 ≤ g p) →
      0 ≤ l.foldl (fun acc p => if c p then acc + g p else acc) 0
  | [], _ => le_refl 0
  | p :: l, h => by
      simp only [List.foldl_cons]
      rw [foldl_ite_add_shift]
      have h1 : 0 ≤ g p := h p (List.mem_cons_self p l)
      have h2 := foldl_ite_add_nonneg c g l (fun q hq => h q (List.mem_cons_of_mem p hq))
      have h3 : 0 ≤ (if c p then 0 + g p else (0:ℚ)) := by split <;> simp [h1]
      linarith

/-- Every element of `validPaymentsOf` has a positive amount. -/
lemma validPayments_amount_pos (s : TaxState) :
    ∀ p ∈ validPaymentsOf s, 0 < p.amount := by
  intro p hp
  have := (List.mem_filter.mp hp).2
  simpa using this

/-- Cumulative paid by a due date is nonnegative. -/
lemma cumulativePaidBy_nonneg (s : TaxState) (d : CalDate) :
    0 ≤ cumulativePaidBy s d := by
  unfold cumulativePaidBy
  exact foldl_ite_add_nonneg (fun p : ValidPayment => p.paidOn.key ≤ d.key)
    (fun p => p.amount) (validPaymentsOf s)
    (fun p hp => le_of_lt (validPayments_amount_pos s p hp))

/-- Filtering to positive amounts before the date-conditional sum agrees
with the direct date-filtered sum when no amount is negative (entries with
a zero amount are dropped by the filter but contribute zero anyway). -/
lemma cum_eq_spec_list (d : CalDate) :
    ∀ (l : List AdvanceTaxPayment), (∀ p ∈ l, 0 ≤ p.amountPaid) →
      ((l.map (fun p => ValidPayment.mk p.amountPaid (p.datePaid.getD p.dueDate))).filter
          (fun p => decide (0 < p.amount))).foldl
        (fun acc p => if p.paidOn.key ≤ d.key then acc + p.amount else acc) 0
      = (l.filter (fun p => decide ((p.datePaid.getD p.dueDate).key ≤ d.key))).foldl
          (fun acc p => acc + p.amountPaid) 0 := by
  intro l
  induction l with
  | nil => intro _; rfl
  | cons p l ih =>
      intro h
      have hl := ih (fun q hq => h q (List.mem_cons_of_mem p hq))
      have hp := h p (List.mem_cons_self p l)
      simp only [List.map_cons, List.filter_cons]
      by_cases hamt : 0 < p.amountPaid
      · by_cases hdate : (p.datePaid.getD p.dueDate).key ≤ d.key
        · simp [hamt, hdate, List.foldl_cons]
          rw [foldl_ite_add_shift (fun q : ValidPayment => q.paidOn.key ≤ d.key)
                (fun q => q.amount),
              foldl_add_shift (fun q : AdvanceTaxPayment => q.amountPaid)]
          rw [hl]
        · simp [hamt, hdate, List.foldl_cons]
          rw [foldl_ite_add_shift (fun q : ValidPayment => q.paidOn.key ≤ d.key)
                (fun q => q.amount)]
          simp [hdate, hl]
      · have hzero : p.amountPaid = 0 := le_antisymm (not_lt.mp hamt) hp
        by_cases hdate : (p.datePaid.getD p.dueDate).key ≤ d.key
        · simp [hamt, hdate, List.foldl_cons]
          rw [foldl_add_shift (fun q : AdvanceTaxPayment => q.amountPaid)]
          rw [hl, hzero]
          ring
        · simp [hamt, hdate, hl]

/-- Agreement of the code's cumulative-paid computation with the sum over
all payment records dated on or before the due date, assuming nonnegative
payment amounts. -/
lemma cumulativePaidBy_eq_spec (s : TaxState) (d : CalDate)
    (h : ∀ p ∈ s.advanceTaxPaid, 0 ≤ p.amountPaid) :
    cumulativePaidBy s d = specSumPaidOnOrBefore s d := by
  unfold cumulativePaidBy validPaymentsOf specSumPaidOnOrBefore
  exact cum_eq_spec_list d s.advanceTaxPaid h

lemma gsAdd_zero (x : GainSummary) : gsAdd x gsZero = x := by
  simp [gsAdd, gsZero]

lemma gsAdd_assoc (x y z : GainSummary) :
    gsAdd (gsAdd x y) z = gsAdd x (gsAdd y z) := by
  simp [gsAdd, add_assoc]

/-- One step of `calculateMFGains` from an arbitrary accumulator is the
accumulator plus the step from the zero accumulator. -/
lemma mfStep_gsAdd (acc : GainSummary) (w : MutualFundWithdrawal) :
    mfStep acc w = gsAdd acc (mfStep gsZero w) := by
  rcases acc with ⟨el, es, dl, ds, td⟩
  simp only [mfStep, gsZero, gsAdd]
  cases w.fundType <;> split_ifs <;> simp [GainSummary.mk.injEq]

lemma foldl_mfStep_gsAdd :
    ∀ (l : List MutualFundWithdrawal) (acc : GainSummary),
      l.foldl mfStep acc = gsAdd acc (l.foldl mfStep gsZero)
  | [], acc => (gsAdd_zero acc).symm
  | w :: l, acc => by
      simp only [List.foldl_cons]
      rw [foldl_mfStep_gsAdd l (mfStep acc w), foldl_mfStep_gsAdd l (mfStep gsZero w),
          mfStep_gsAdd acc w, gsAdd_assoc]

lemma usAdd_zero (x : USGainSummary) : usAdd x usZero = x := by
  simp [usAdd, usZero]

lemma usAdd_assoc (x y z : USGainSummary) :
    usAdd (usAdd x y) z = usAdd x (usAdd y z) := by
  simp [usAdd, add_assoc]

lemma usStep_usAdd (acc : USGainSummary) (sl : USStockSale) :
    usStep acc sl = usAdd acc (usStep usZero sl) := by
  rcases acc with ⟨lt, st, td⟩
  simp only [usStep, usZero, usAdd]
  split_ifs <;> simp [USGainSummary.mk.injEq]

lemma foldl_usStep_usAdd :
    ∀ (l : List USStockSale) (acc : USGainSummary),
      l.foldl usStep acc = usAdd acc (l.foldl usStep usZero)
  | [], acc => (usAdd_zero acc).symm
  | sl :: l, acc => by
      simp only [List.foldl_cons]
      rw [foldl_usStep_usAdd l (usStep acc sl), foldl_usStep_usAdd l (usStep usZero sl),
          usStep_usAdd acc sl, usAdd_assoc]

/-- Unfolding `calculateMFGains` as a fold from the zero summary. -/
lemma calculateMFGains_eq_foldl (l : List MutualFundWithdrawal) :
    calculateMFGains l = l.foldl mfStep gsZero := rfl

/-- Unfolding `calculateUSStockGains` as a fold from the zero summary. -/
lemma calculateUSStockGains_eq_foldl (l : List USStockSale) :
    calculateUSStockGains l = l.foldl usStep usZero := rfl

/-- C5: for both regimes, `calculateSlabTax` returns exactly zero at the
rebate limit (500,000 old / 700,000 new) and a strictly positive amount
for any taxable income strictly above it, in particular one rupee above. -/
theorem slabTax_rebate_cliff :
    calculateSlabTax 500000 .old = 0 ∧ calculateSlabTax 700000 .new = 0
    ∧ (∀ income : ℚ, 500000 < income → 0 < calculateSlabTax income .old)
    ∧ (∀ income : ℚ, 700000 < income → 0 < calculateSlabTax income .new) := by
  refine ⟨by norm_num [calculateSlabTax], by norm_num [calculateSlabTax], ?_, ?_⟩
  · intro income h
    unfold calculateSlabTax
    split_ifs <;> linarith
  · intro income h
    unfold calculateSlabTax
    split_ifs <;> linarith

/-- Witness for C5 at one rupee above each rebate limit. -/
theorem slabTax_rebate_cliff_witness :
    0 < calculateSlabTax 500001 .old ∧ 0 < calculateSlabTax 700001 .new :=
  ⟨slabTax_rebate_cliff.2.2.1 500001 (by norm_num),
   slabTax_rebate_cliff.2.2.2 700001 (by norm_num)⟩

/-- C6: an entry whose whole-month holding period exactly equals its
asset-category threshold (12 equity / 36 debt / 24 US stock) is
classified short-term; a long-term bucket is reached only for a holding
period strictly greater than the threshold. -/
theorem holding_threshold_is_shortTerm :
    (∀ w : MutualFundWithdrawal, 0 < w.amountWithdrawn - w.costBasis →
      (w.fundType = .equity → w.holdingPeriodMonths = 12 →
        (calculateMFGains [w]).equityStcg = w.amountWithdrawn - w.costBasis
        ∧ (calculateMFGains [w]).equityLtcg = 0)
      ∧ (w.fundType = .debt → w.holdingPeriodMonths = 36 →
        (calculateMFGains [w]).debtStcgAsSlab = w.amountWithdrawn - w.costBasis
        ∧ (calculateMFGains [w]).debtLtcg = 0))
    ∧ (∀ sl : USStockSale,
        0 < sl.saleProceedsINR - sl.costBasisINR - sl.brokerageCharges →
        sl.holdingPeriodMonths = 24 →
        (calculateUSStockGains [sl]).stcg
            = sl.saleProceedsINR - sl.costBasisINR - sl.brokerageCharges
        ∧ (calculateUSStockGains [sl]).ltcg = 0)
    ∧ (∀ w : MutualFundWithdrawal, (calculateMFGains [w]).equityLtcg ≠ 0 →
        12 < w.holdingPeriodMonths)
    ∧ (∀ w : MutualFundWithdrawal, (calculateMFGains [w]).debtLtcg ≠ 0 →
        36 < w.holdingPeriodMonths)
    ∧ (∀ sl : USStockSale, (calculateUSStockGains [sl]).ltcg ≠ 0 →
        24 < sl.holdingPeriodMonths) := by
  refine ⟨?_, ?_, ?_, ?_, ?_⟩
  · intro w hg
    constructor
    · intro hft hm
      simp [calculateMFGains, mfStep, hft, hm, not_le.mpr hg, gsZero]
    · intro hft hm
      simp [calculateMFGains, mfStep, hft, hm, not_le.mpr hg, gsZero]
  · intro sl hg hm
    simp [calculateUSStockGains, usStep, hm, not_le.mpr hg, usZero]
  · intro w hne
    by_contra hnot
    apply hne
    rcases hft : w.fundType with hft1 | hft1 <;>
      simp [calculateMFGains, mfStep, hft, hnot, gsZero] <;> split_ifs <;> rfl
  · intro w hne
    by_contra hnot
    apply hne
    rcases hft : w.fundType with hft1 | hft1 <;>
      simp [calculateMFGains, mfStep, hft, hnot, gsZero] <;> split_ifs <;> rfl
  · intro sl hne
    by_contra hnot
    apply hne
    simp [calculateUSStockGains, usStep, hnot, usZero]
    split_ifs <;> rfl

/-- C7: a loss-making entry contributes zero to every taxed gain bucket,
while its TDS is still credited to the summary's total. -/
theorem loss_entries_contribute_only_tds (w : MutualFundWithdrawal)
    (ws : List MutualFundWithdrawal) (sl : USStockSale) (sls : List USStockSale)
    (hw : w.amountWithdrawn - w.costBasis ≤ 0)
    (hsl : sl.saleProceedsINR - sl.costBasisINR - sl.brokerageCharges ≤ 0) :
    calculateMFGains (w :: ws)
        = { calculateMFGains ws with totalTds := w.tds + (calculateMFGains ws).totalTds }
    ∧ calculateUSStockGains (sl :: sls)
        = { calculateUSStockGains sls with
            totalTds := sl.tds + (calculateUSStockGains sls).totalTds } := by
  constructor
  · have h1 : mfStep gsZero w
        = { equityLtcg := 0, equityStcg := 0, debtLtcg := 0, debtStcgAsSlab := 0,
            totalTds := w.tds } := by
      simp [mfStep, gsZero, hw]
    rw [calculateMFGains_eq_foldl, List.foldl_cons, foldl_mfStep_gsAdd, h1,
        ← calculateMFGains_eq_foldl]
    simp [gsAdd]
  · have h1 : usStep usZero sl = { ltcg := 0, stcg := 0, totalTds := sl.tds } := by
      simp [usStep, usZero, hsl]
    rw [calculateUSStockGains_eq_foldl, List.foldl_cons, foldl_usStep_usAdd, h1,
        ← calculateUSStockGains_eq_foldl]
    simp [usAdd]

/-- Witness for C7 on concrete loss-making entries. -/
theorem loss_entries_contribute_only_tds_witness :
    calculateMFGains
        [{ fundType := .equity, dateOfInvestment := none, dateOfWithdrawal := none,
           amountWithdrawn := 90, costBasis := 100, holdingPeriodMonths := 5, tds := 7 }]
      = { equityLtcg := 0, equityStcg := 0, debtLtcg := 0, debtStcgAsSlab := 0,
          totalTds := 7 }
    ∧ calculateUSStockGains
        [{ dateOfPurchase := none, dateOfSale := none, saleProceedsINR := 50,
           costBasisINR := 45, brokerageCharges := 6, holdingPeriodMonths := 30, tds := 3 }]
      = { ltcg := 0, stcg := 0, totalTds := 3 } := by
  have h := loss_entries_contribute_only_tds
    { fundType := .equity, dateOfInvestment := none, dateOfWithdrawal := none,
      amountWithdrawn := 90, costBasis := 100, holdingPeriodMonths := 5, tds := 7 } []
    { dateOfPurchase := none, dateOfSale := none, saleProceedsINR := 50,
      costBasisINR := 45, brokerageCharges := 6, holdingPeriodMonths := 30, tds := 3 } []
    (by norm_num) (by norm_num)
  rcases h with ⟨h1, h2⟩
  constructor
  · rw [h1]; norm_num [calculateMFGains, gsZero]
  · rw [h2]; norm_num [calculateUSStockGains, usZero]

/-- C8 (amended): the indexed cost basis of a long-term debt-fund or
US-stock gain is the original cost uplifted by 1.04 compounded over the
difference of the calendar year numbers of disposal and acquisition,
clamped at zero. -/
theorem longTerm_indexed_cost_calendar_years
    (w : MutualFundWithdrawal) (sl : USStockSale) (pw sw ps ss : CalDate)
    (hwft : w.fundType = .debt) (hwhold : 36 < w.holdingPeriodMonths)
    (hwgain : 0 < w.amountWithdrawn - w.costBasis)
    (hwp : w.dateOfInvestment = some pw) (hws : w.dateOfWithdrawal = some sw)
    (hshold : 24 < sl.holdingPeriodMonths)
    (hsgain : 0 < sl.saleProceedsINR - sl.costBasisINR - sl.brokerageCharges)
    (hsp : sl.dateOfPurchase = some ps) (hss : sl.dateOfSale = some ss) :
    (calculateMFGains [w]).debtLtcg
        = max 0 (w.amountWithdrawn
            - w.costBasis * (104 / 100 : ℚ) ^ (sw.year - pw.year))
    ∧ (calculateUSStockGains [sl]).ltcg
        = max 0 (sl.saleProceedsINR
            - sl.costBasisINR * (104 / 100 : ℚ) ^ (ss.year - ps.year)
            - sl.brokerageCharges) := by
  constructor
  · simp [calculateMFGains, mfStep, getIndexedCost, hwft, hwhold, hwp, hws,
      not_le.mpr hwgain, gsZero]
  · simp [calculateUSStockGains, usStep, getIndexedCost, hshold, hsp, hss,
      not_le.mpr hsgain, usZero]

/-- Counterexample to C8 as stated: for the entry above the code uplifts
the cost over 4 calendar years, not the 3 elapsed whole years the claim
would give. -/
theorem longTerm_indexed_cost_not_whole_years :
    specWholeYearsBetween (CalDate.mk 2020 11 15) (CalDate.mk 2024 1 20) = 3
    ∧ (calculateMFGains [debtEntryAcross4Years]).debtLtcg
        = max 0 (200 - 100 * (104 / 100 : ℚ) ^ (4 : ℕ))
    ∧ (calculateMFGains [debtEntryAcross4Years]).debtLtcg
        ≠ max 0 (200 - 100 * (104 / 100 : ℚ)
            ^ (specWholeYearsBetween (CalDate.mk 2020 11 15) (CalDate.mk 2024 1 20))) := by
  refine ⟨by norm_num [specWholeYearsBetween], ?_, ?_⟩
  · norm_num [calculateMFGains, mfStep, getIndexedCost, debtEntryAcross4Years, gsZero]
  · norm_num [calculateMFGains, mfStep, getIndexedCost, debtEntryAcross4Years, gsZero,
      specWholeYearsBetween]

/-- Witness for the amended C8 on the same concrete debt entry and a
concrete US-stock sale. -/
theorem longTerm_indexed_cost_calendar_years_witness :
    (calculateMFGains [debtEntryAcross4Years]).debtLtcg
        = max 0 (200 - 100 * (104 / 100 : ℚ) ^ (4 : ℕ))
    ∧ (calculateUSStockGains
        [{ dateOfPurchase := some (CalDate.mk 2021 6 1),
           dateOfSale := some (CalDate.mk 2023 8 2), saleProceedsINR := 500,
           costBasisINR := 300, brokerageCharges := 10, holdingPeriodMonths := 26,
           tds := 0 }]).ltcg
        = max 0 (500 - 300 * (104 / 100 : ℚ) ^ (2 : ℕ) - 10) := by
  have h := longTerm_indexed_cost_calendar_years debtEntryAcross4Years
    { dateOfPurchase := some (CalDate.mk 2021 6 1), dateOfSale := some (CalDate.mk 2023 8 2),
      saleProceedsINR := 500, costBasisINR := 300, brokerageCharges := 10,
      holdingPeriodMonths := 26, tds := 0 }
    (CalDate.mk 2020 11 15) (CalDate.mk 2024 1 20)
    (CalDate.mk 2021 6 1) (CalDate.mk 2023 8 2)
    rfl (by norm_num [debtEntryAcross4Years]) (by norm_num [debtEntryAcross4Years])
    rfl rfl (by norm_num) (by norm_num) rfl rfl
  rcases h with ⟨h1, h2⟩
  constructor
  · rw [h1]; norm_num [debtEntryAcross4Years]
  · rw [h2]; norm_num

/-- C1: when the taxpayer is not advance-tax-exempt and the assessed tax
(final tax minus credited TDS, floored at zero) exceeds 10,000, the four
required amounts are 15%, 45%, 75% and 100% of the assessed tax; when the
taxpayer is exempt or the assessed tax does not exceed 10,000, all four
required amounts are zero. -/
theorem advanceTax_required_amounts (s : TaxState) :
    (exemptFromAdvanceTaxOf s = false → 10000 < assessedTaxOf s →
      (generateWorksheet s).advanceTaxSchedule.map AdvanceTaxScheduleItem.requiredAmount
        = [assessedTaxOf s * (15 / 100), assessedTaxOf s * (45 / 100),
           assessedTaxOf s * (75 / 100), assessedTaxOf s * 1])
    ∧ (exemptFromAdvanceTaxOf s = true ∨ assessedTaxOf s ≤ 10000 →
      (generateWorksheet s).advanceTaxSchedule.map AdvanceTaxScheduleItem.requiredAmount
        = [0, 0, 0, 0]) := by
  constructor
  · intro hex hgt
    have happ : isAdvanceTaxApplicableOf s = true := by
      simp [isAdvanceTaxApplicableOf, hex, hgt]
    simp [generateWorksheet, scheduleOf, scheduleRow, advanceTaxBaseOf, happ]
  · intro hcase
    have happ : isAdvanceTaxApplicableOf s = false := by
      rcases hcase with hex | hle
      · simp [isAdvanceTaxApplicableOf, hex]
      · simp [isAdvanceTaxApplicableOf, not_lt.mpr hle]
    simp [generateWorksheet, scheduleOf, scheduleRow, advanceTaxBaseOf, happ]

/-- C2 (amended): when advance tax is applicable, the 234B interest is
zero iff the amount paid through 2026-03-31 reaches 90% of the assessed
tax, and otherwise equals the shortfall from that 90% threshold times 1%
per month for 4 months, which is strictly positive; when advance tax is
not applicable (exempt taxpayer or assessed tax at most 10,000) the
interest is zero even if the payments fall short of 90%. -/
theorem interest234B_shortfall_rule (s : TaxState) :
    (isAdvanceTaxApplicableOf s = true →
      (assessedTaxOf s * (90 / 100) ≤ paidThroughMarch31Of s →
        (generateWorksheet s).interest234B = 0)
      ∧ (paidThroughMarch31Of s < assessedTaxOf s * (90 / 100) →
        (generateWorksheet s).interest234B
            = (assessedTaxOf s * (90 / 100) - paidThroughMarch31Of s) * (1 / 100) * 4
        ∧ 0 < (generateWorksheet s).interest234B))
    ∧ (isAdvanceTaxApplicableOf s = false →
      (generateWorksheet s).interest234B = 0) := by
  constructor
  · intro happ
    constructor
    · intro hle
      simp [generateWorksheet, interest234BOf, happ, not_lt.mpr hle]
    · intro hlt
      have heq : (generateWorksheet s).interest234B
          = (assessedTaxOf s * (90 / 100) - paidThroughMarch31Of s) * (1 / 100) * 4 := by
        simp [generateWorksheet, interest234BOf, happ, hlt]
      refine ⟨heq, ?_⟩
      rw [heq]
      have hpos : 0 < assessedTaxOf s * (90 / 100) - paidThroughMarch31Of s := by
        linarith
      linarith
  · intro happ
    simp [generateWorksheet, interest234BOf, happ]

/-- Every schedule row's shortfall is the clamped difference of its own
required and actually-paid amounts. -/
lemma scheduleOf_shortfall_eq (s : TaxState) :
    ∀ item ∈ scheduleOf s,
      item.shortfall = max 0 (item.requiredAmount - item.actualPaid) := by
  intro item hitem
  simp only [scheduleOf, List.mem_cons, List.not_mem_nil, or_false] at hitem
  rcases hitem with h1 | h1 | h1 | h1 <;> rw [h1] <;> rfl

/-- Every schedule row's shortfall vanishes when advance tax is not
applicable, because the required amounts are all zero and payments are
nonnegative. -/
lemma scheduleOf_shortfall_zero (s : TaxState)
    (h : isAdvanceTaxApplicableOf s = false) :
    ∀ item ∈ scheduleOf s, item.shortfall = 0 := by
  have hbase : advanceTaxBaseOf s = 0 := by simp [advanceTaxBaseOf, h]
  intro item hitem
  simp only [scheduleOf, List.mem_cons, List.not_mem_nil, or_false] at hitem
  rcases hitem with h1 | h1 | h1 | h1 <;> rw [h1] <;>
    · show max 0 _ = 0
      rw [hbase]
      have := cumulativePaidBy_nonneg s
      refine max_eq_left ?_
      have h2 := this (CalDate.mk 2025 6 15)
      have h3 := this (CalDate.mk 2025 9 15)
      have h4 := this (CalDate.mk 2025 12 15)
      have h5 := this (CalDate.mk 2026 3 15)
      simp only [zero_mul, zero_sub, neg_nonpos]
      first
        | exact h2 | exact h3 | exact h4 | exact h5

/-- C3: the 234C interest always equals the per-installment sum of
shortfall times 1% times months (3 months for June, September and
December, 1 for March), counting only installments with a positive
shortfall; it is zero for a taxpayer who covers every required amount by
its due date and zero for an advance-tax-exempt taxpayer. -/
theorem interest234C_installment_rule (s : TaxState) :
    (generateWorksheet s).interest234C
        = (generateWorksheet s).advanceTaxSchedule.foldl
            (fun acc item =>
              if 0 < item.shortfall then
                acc + item.shortfall * (1 / 100) * (if item.quarter = "March" then 1 else 3)
              else acc) 0
    ∧ ((∀ item ∈ (generateWorksheet s).advanceTaxSchedule,
          item.requiredAmount ≤ item.actualPaid) →
        (generateWorksheet s).interest234C = 0)
    ∧ (exemptFromAdvanceTaxOf s = true →
        (generateWorksheet s).interest234C = 0) := by
  have hfold0 : ∀ (l : List AdvanceTaxScheduleItem), (∀ item ∈ l, item.shortfall = 0) →
      l.foldl
        (fun acc item =>
          if 0 < item.shortfall then
            acc + item.shortfall * (1 / 100) * (if item.quarter = "March" then 1 else 3)
          else acc) 0 = 0 := by
    intro l
    induction l with
    | nil => intro _; rfl
    | cons item l ih =>
        intro hz
        have h1 := hz item (List.mem_cons_self item l)
        simp only [List.foldl_cons, h1, lt_irrefl, if_false]
        exact ih (fun q hq => hz q (List.mem_cons_of_mem item hq))
  refine ⟨?_, ?_, ?_⟩
  · by_cases happ : isAdvanceTaxApplicableOf s = true
    · simp [generateWorksheet, interest234COf, happ]
    · have happ' : isAdvanceTaxApplicableOf s = false := by
        simpa using happ
      have hz := scheduleOf_shortfall_zero s happ'
      simp only [generateWorksheet, interest234COf, happ', Bool.false_eq_true, if_false]
      exact (hfold0 (scheduleOf s) hz).symm
  · intro hpaid
    have hz : ∀ item ∈ scheduleOf s, item.shortfall = 0 := by
      intro item hitem
      rw [scheduleOf_shortfall_eq s item hitem]
      refine max_eq_left ?_
      have := hpaid item (by simpa [generateWorksheet] using hitem)
      linarith
    by_cases happ : isAdvanceTaxApplicableOf s = true
    · simp only [generateWorksheet, interest234COf, happ, if_true]
      exact hfold0 (scheduleOf s) hz
    · have happ' : isAdvanceTaxApplicableOf s = false := by simpa using happ
      simp [generateWorksheet, interest234COf, happ']
  · intro hex
    have happ' : isAdvanceTaxApplicableOf s = false := by
      simp [isAdvanceTaxApplicableOf, hex]
    simp [generateWorksheet, interest234COf, happ']

/-- C4: each schedule row's actual-paid figure is the sum of all payment
records dated on or before that row's due date (irrespective of the
payment's nominal quarter), and its shortfall is the required amount
minus that cumulative sum clamped at zero, hence never negative. -/
theorem schedule_actualPaid_by_date (s : TaxState)
    (h : ∀ p ∈ s.advanceTaxPaid, 0 ≤ p.amountPaid) :
    ∀ item ∈ (generateWorksheet s).advanceTaxSchedule,
      item.actualPaid = specSumPaidOnOrBefore s item.dueDate
      ∧ item.shortfall = max 0 (item.requiredAmount - item.actualPaid)
      ∧ 0 ≤ item.shortfall := by
  intro item hitem
  have hitem' : item ∈ scheduleOf s := by
    simpa [generateWorksheet] using hitem
  refine ⟨?_, scheduleOf_shortfall_eq s item hitem', ?_⟩
  · simp only [scheduleOf, List.mem_cons, List.not_mem_nil, or_false] at hitem'
    rcases hitem' with h1 | h1 | h1 | h1 <;> rw [h1] <;>
      exact cumulativePaidBy_eq_spec s _ h
  · rw [scheduleOf_shortfall_eq s item hitem']
    exact le_max_left 0 _

/-- C9: the recommended regime is `'old'` exactly when the old-regime
total tax is at most the new-regime total tax — in particular on a tie —
and the final tax used downstream is the total tax of the recommended
regime. -/
theorem regime_recommendation_rule (s : TaxState) :
    ((generateWorksheet s).recommendedRegime = TaxRegime.old ↔
      (generateWorksheet s).taxOldRegime ≤ (generateWorksheet s).taxNewRegime)
    ∧ ((generateWorksheet s).taxOldRegime = (generateWorksheet s).taxNewRegime →
      (generateWorksheet s).recommendedRegime = TaxRegime.old)
    ∧ ((generateWorksheet s).recommendedRegime = TaxRegime.old →
      finalTaxOf s = (generateWorksheet s).taxOldRegime)
    ∧ ((generateWorksheet s).recommendedRegime = TaxRegime.new →
      finalTaxOf s = (generateWorksheet s).taxNewRegime) := by
  have hpo : (generateWorksheet s).taxOldRegime = regimeTotalTax s TaxRegime.old := rfl
  have hpn : (generateWorksheet s).taxNewRegime = regimeTotalTax s TaxRegime.new := rfl
  have hpr : (generateWorksheet s).recommendedRegime = recommendedRegimeOf s := rfl
  rw [hpo, hpn, hpr]
  by_cases hle : regimeTotalTax s TaxRegime.old ≤ regimeTotalTax s TaxRegime.new
  · have hrec : recommendedRegimeOf s = TaxRegime.old := by
      simp [recommendedRegimeOf, hle]
    rw [hrec]
    refine ⟨⟨fun _ => hle, fun _ => rfl⟩, fun _ => rfl, fun _ => ?_, fun hcontra => ?_⟩
    · simp only [finalTaxOf, hrec, if_pos]
    · exact absurd hcontra (by simp)
  · have hrec : recommendedRegimeOf s = TaxRegime.new := by
      simp [recommendedRegimeOf, hle]
    rw [hrec]
    refine ⟨⟨fun hcontra => absurd hcontra (by simp), fun hcontra => absurd hcontra hle⟩,
      fun heq => absurd (le_of_eq heq) hle, fun hcontra => absurd hcontra (by simp),
      fun _ => ?_⟩
    simp [finalTaxOf, hrec]

/-- C10: an absent business/professional-income flag is treated as
`true`, so the taxpayer is not advance-tax-exempt and the whole worksheet
coincides with the one computed for an explicit `true` flag; a resident
taxpayer aged 60 or above is exempt exactly when the flag is explicitly
`false`. -/
theorem missing_business_flag_defaults_true (s : TaxState) :
    (s.personalInfo.hasBusinessOrProfessionalIncome = none →
      hasBizIncomeOf s = true
      ∧ exemptFromAdvanceTaxOf s = false
      ∧ generateWorksheet s
          = generateWorksheet
              { s with personalInfo :=
                  { s.personalInfo with hasBusinessOrProfessionalIncome := some true } })
    ∧ (s.personalInfo.residentialStatus = ResidentialStatus.resident →
       s.personalInfo.ageBracket ≠ AgeBracket.below60 →
       (exemptFromAdvanceTaxOf s = true ↔
         s.personalInfo.hasBusinessOrProfessionalIncome = some false)) := by
  constructor
  · intro hnone
    have hb : hasBizIncomeOf s = true := by simp [hasBizIncomeOf, hnone]
    have hb' : hasBizIncomeOf
        { s with personalInfo :=
            { s.personalInfo with hasBusinessOrProfessionalIncome := some true } }
        = true := rfl
    have he : exemptFromAdvanceTaxOf s = false := by
      simp [exemptFromAdvanceTaxOf, hb]
    refine ⟨hb, he, ?_⟩
    simp only [generateWorksheet, interest234BOf, interest234COf, scheduleOf, scheduleRow,
      advanceTaxBaseOf, isAdvanceTaxApplicableOf, exemptFromAdvanceTaxOf, hb, hb']
    rfl
  · intro hres hage
    have hsen : isResidentSeniorOf s = true := by
      simp [isResidentSeniorOf, hres, hage]
    constructor
    · intro hex
      have hbf : hasBizIncomeOf s = false := by
        simp only [exemptFromAdvanceTaxOf, hsen, Bool.true_and, Bool.not_eq_true'] at hex
        exact hex
      cases hflag : s.personalInfo.hasBusinessOrProfessionalIncome with
      | none => simp [hasBizIncomeOf, hflag] at hbf
      | some b =>
          have hbfalse : b = false := by simpa [hasBizIncomeOf, hflag] using hbf
          rw [hbfalse]
    · intro hflag
      simp [exemptFromAdvanceTaxOf, isResidentSeniorOf, hres, hage, hasBizIncomeOf, hflag]

/-- Sanity value of the assessed tax of the high-income state. -/
lemma highIncomeState_assessedTax : assessedTaxOf highIncomeState = 301600 := by
  norm_num [assessedTaxOf, finalTaxOf, recommendedRegimeOf, regimeTotalTax, regimeBaseTax,
    regimeTaxableIncome, regimeTaxableIncomeWithSpecialRates, calculateSlabTax,
    calculateSurcharge, totalDeductionsOf, slabIncomeBaseOf, salaryNetOf,
    totalOtherIncomeOf, otherIncomeTdsOf, totalTdsOf, mfSummaryOf, usSummaryOf,
    calculateMFGains, calculateUSStockGains, gsZero, usZero, highIncomeState,
    zeroDeductions]
  simp

/-- Sanity value of the assessed tax of the low-assessed state. -/
lemma lowAssessedState_assessedTax : assessedTaxOf lowAssessedState = 5000 := by
  norm_num [assessedTaxOf, finalTaxOf, recommendedRegimeOf, regimeTotalTax, regimeBaseTax,
    regimeTaxableIncome, regimeTaxableIncomeWithSpecialRates, calculateSlabTax,
    calculateSurcharge, totalDeductionsOf, slabIncomeBaseOf, salaryNetOf,
    totalOtherIncomeOf, otherIncomeTdsOf, totalTdsOf, mfSummaryOf, usSummaryOf,
    calculateMFGains, calculateUSStockGains, gsZero, usZero, lowAssessedState,
    zeroDeductions]
  simp
  norm_num

/-- Counterexample to C2 as stated: the low-assessed taxpayer has paid
nothing — far less than 90% of the assessed tax — yet the 234B interest
is zero, because advance tax is not applicable below the 10,000
threshold. -/
theorem interest234B_not_always_positive_counterexample :
    paidThroughMarch31Of lowAssessedState
        < assessedTaxOf lowAssessedState * (90 / 100)
    ∧ 0 < assessedTaxOf lowAssessedState
    ∧ (generateWorksheet lowAssessedState).interest234B = 0 := by
  have h0 : paidThroughMarch31Of lowAssessedState = 0 := rfl
  have happ : isAdvanceTaxApplicableOf lowAssessedState = false := by
    unfold isAdvanceTaxApplicableOf
    rw [lowAssessedState_assessedTax]
    norm_num
  refine ⟨?_, ?_, ?_⟩
  · rw [h0, lowAssessedState_assessedTax]; norm_num
  · rw [lowAssessedState_assessedTax]; norm_num
  · show interest234BOf lowAssessedState = 0
    simp [interest234BOf, happ]

/-- Witness for the amended C2 on the high-income state, which pays
nothing while advance tax is applicable. -/
theorem interest234B_shortfall_rule_witness :
    (generateWorksheet highIncomeState).interest234B
        = (assessedTaxOf highIncomeState * (90 / 100)
            - paidThroughMarch31Of highIncomeState) * (1 / 100) * 4
    ∧ 0 < (generateWorksheet highIncomeState).interest234B := by
  have happ : isAdvanceTaxApplicableOf highIncomeState = true := by
    unfold isAdvanceTaxApplicableOf
    rw [highIncomeState_assessedTax]
    norm_num [exemptFromAdvanceTaxOf, isResidentSeniorOf, hasBizIncomeOf, highIncomeState]
  have hlt : paidThroughMarch31Of highIncomeState
      < assessedTaxOf highIncomeState * (90 / 100) := by
    have h0 : paidThroughMarch31Of highIncomeState = 0 := rfl
    rw [h0, highIncomeState_assessedTax]
    norm_num
  exact ((interest234B_shortfall_rule highIncomeState).1 happ).2 hlt

/-- Witness for C1: required amounts on the high-income state and the
all-zero schedule of the exempt senior. -/
theorem advanceTax_required_amounts_witness :
    (generateWorksheet highIncomeState).advanceTaxSchedule.map
        AdvanceTaxScheduleItem.requiredAmount
      = [assessedTaxOf highIncomeState * (15 / 100),
         assessedTaxOf highIncomeState * (45 / 100),
         assessedTaxOf highIncomeState * (75 / 100),
         assessedTaxOf highIncomeState * 1]
    ∧ (generateWorksheet seniorExemptState).advanceTaxSchedule.map
        AdvanceTaxScheduleItem.requiredAmount = [0, 0, 0, 0] :=
  ⟨(advanceTax_required_amounts highIncomeState).1 rfl
      (by rw [highIncomeState_assessedTax]; norm_num),
   (advanceTax_required_amounts seniorExemptState).2 (Or.inl rfl)⟩

/-- Payments do not change the assessed tax. -/
lemma fullPaymentState_assessedTax : assessedTaxOf fullPaymentState = 301600 :=
  highIncomeState_assessedTax

/-- Witness for C3: zero 234C interest for the fully-paying taxpayer and
for the exempt senior. -/
theorem interest234C_installment_rule_witness :
    (generateWorksheet fullPaymentState).interest234C = 0
    ∧ (generateWorksheet seniorExemptState).interest234C = 0 := by
  constructor
  · have hbase : advanceTaxBaseOf fullPaymentState = 301600 := by
      have happ : isAdvanceTaxApplicableOf fullPaymentState = true := by
        unfold isAdvanceTaxApplicableOf
        rw [fullPaymentState_assessedTax]
        norm_num [exemptFromAdvanceTaxOf, isResidentSeniorOf, hasBizIncomeOf,
          fullPaymentState, highIncomeState]
      unfold advanceTaxBaseOf
      rw [happ, fullPaymentState_assessedTax]
      simp
    refine (interest234C_installment_rule fullPaymentState).2.1 ?_
    intro item hitem
    have hitem' : item ∈ scheduleOf fullPaymentState := hitem
    simp only [scheduleOf, List.mem_cons, List.not_mem_nil, or_false] at hitem'
    rcases hitem' with h1 | h1 | h1 | h1 <;> rw [h1] <;>
      · show advanceTaxBaseOf fullPaymentState * _ ≤ cumulativePaidBy fullPaymentState _
        rw [hbase]
        norm_num [cumulativePaidBy, validPaymentsOf, fullPaymentState, highIncomeState,
          CalDate.key]
  · exact (interest234C_installment_rule seniorExemptState).2.2 rfl

/-- Witness for C4 at the September row of the late-payment state: the
payment counts by its actual date, and the shortfall is nonnegative. -/
theorem schedule_actualPaid_by_date_witness :
    (scheduleRow latePaymentState "September" (CalDate.mk 2025 9 15) 45
        (45 / 100)).actualPaid
      = specSumPaidOnOrBefore latePaymentState (CalDate.mk 2025 9 15)
    ∧ 0 ≤ (scheduleRow latePaymentState "September" (CalDate.mk 2025 9 15) 45
        (45 / 100)).shortfall := by
  have hamt : ∀ p ∈ latePaymentState.advanceTaxPaid, 0 ≤ p.amountPaid := by
    intro p hp
    have hp' : p ∈ [AdvanceTaxPayment.mk (CalDate.mk 2025 6 15) 1000
        (some (CalDate.mk 2025 9 1))] := hp
    rw [List.mem_singleton] at hp'
    rw [hp']
    norm_num
  have hmem : scheduleRow latePaymentState "September" (CalDate.mk 2025 9 15) 45 (45 / 100)
      ∈ (generateWorksheet latePaymentState).advanceTaxSchedule := by
    show _ ∈ scheduleOf latePaymentState
    simp [scheduleOf]
  have h := schedule_actualPaid_by_date latePaymentState hamt _ hmem
  exact ⟨h.1, h.2.2⟩

/-- Witness for C9: on a tie (both regime taxes are zero for the empty
state) the old regime is recommended and the final tax follows it. -/
theorem regime_recommendation_rule_witness :
    (generateWorksheet emptyState).recommendedRegime = TaxRegime.old
    ∧ finalTaxOf emptyState = (generateWorksheet emptyState).taxOldRegime := by
  have heq : (generateWorksheet emptyState).taxOldRegime
      = (generateWorksheet emptyState).taxNewRegime := by
    have h1 : (generateWorksheet emptyState).taxOldRegime = 0 := by
      show regimeTotalTax emptyState TaxRegime.old = 0
      norm_num [regimeTotalTax, regimeBaseTax, regimeTaxableIncome,
        regimeTaxableIncomeWithSpecialRates, calculateSlabTax, calculateSurcharge,
        totalDeductionsOf, slabIncomeBaseOf, salaryNetOf, totalOtherIncomeOf,
        mfSummaryOf, usSummaryOf, calculateMFGains, calculateUSStockGains, gsZero,
        usZero, emptyState, zeroDeductions]
    have h2 : (generateWorksheet emptyState).taxNewRegime = 0 := by
      show regimeTotalTax emptyState TaxRegime.new = 0
      norm_num [regimeTotalTax, regimeBaseTax, regimeTaxableIncome,
        regimeTaxableIncomeWithSpecialRates, calculateSlabTax, calculateSurcharge,
        totalDeductionsOf, slabIncomeBaseOf, salaryNetOf, totalOtherIncomeOf,
        mfSummaryOf, usSummaryOf, calculateMFGains, calculateUSStockGains, gsZero,
        usZero, emptyState, zeroDeductions]
    rw [h1, h2]
  have hrec := (regime_recommendation_rule emptyState).2.1 heq
  exact ⟨hrec, (regime_recommendation_rule emptyState).2.2.1 hrec⟩

/-- Witness for C10: the absent flag defaults to `true` (no exemption)
and the worksheet matches the explicit-`true` one; the senior with an
explicit `false` flag is exempt. -/
theorem missing_business_flag_defaults_true_witness :
    hasBizIncomeOf stateNoFlag = true
    ∧ exemptFromAdvanceTaxOf stateNoFlag = false
    ∧ generateWorksheet stateNoFlag
        = generateWorksheet
            { stateNoFlag with personalInfo :=
                { stateNoFlag.personalInfo with
                    hasBusinessOrProfessionalIncome := some true } }
    ∧ (exemptFromAdvanceTaxOf seniorExemptState = true ↔
        seniorExemptState.personalInfo.hasBusinessOrProfessionalIncome = some false) := by
  have h1 := (missing_business_flag_defaults_true stateNoFlag).1 rfl
  have h2 := (missing_business_flag_defaults_true seniorExemptState).2 rfl (by decide)
  exact ⟨h1.1, h1.2.1, h1.2.2, h2⟩

/-- Witness for C6 on entries held exactly at each threshold. -/
theorem holding_threshold_is_shortTerm_witness :
    (calculateMFGains [equityAtThreshold]).equityLtcg = 0
    ∧ (calculateMFGains [debtAtThreshold]).debtLtcg = 0
    ∧ (calculateUSStockGains [usAtThreshold]).ltcg = 0 :=
  ⟨((holding_threshold_is_shortTerm.1 equityAtThreshold (by norm_num [equityAtThreshold])).1
      rfl rfl).2,
   ((holding_threshold_is_shortTerm.1 debtAtThreshold (by norm_num [debtAtThreshold])).2
      rfl rfl).2,
   (holding_threshold_is_shortTerm.2.1 usAtThreshold (by norm_num [usAtThreshold]) rfl).2⟩
